import Mathlib

/-!
Shallow embedding of the LLM tool-calling dispatch loop of the
campus-administration backend (`backend/agent.py`, `backend/utils.py`,
`backend/tools.py`).

Modelling conventions:
* Python dicts used as chat messages become the `Msg` structure.
* The OpenAI client is an oracle parameter `svc : List Msg → Bool → RespMessage`
  (the `Bool` records whether the request carried `functions=...`, which is
  true for the first call of a turn and false for the phrasing call); the
  streaming client is `svcStream : List Msg → List (Option String)`, the
  list of `chunk.choices[0].delta.content` values.
* `json.loads` on the function-call arguments is an oracle
  `parse : String → Except String Args`; `.error e` models the parse raising
  with message `e`.
* A tool implementation is `impl : String → Args → Except String ToolResult`;
  `.error e` models the implementation raising with message `e`.
* `self.db.add(...); self.db.commit()` in `_save_conversation` is an oracle
  `commit : ConvRow → Except String Unit`; `.error e` models the commit
  raising with message `e`.
* Database timestamps are modelled by a monotone counter `clock` in the
  agent state; the SQL `ORDER BY timestamp` is an insertion sort on it.
* `print(...)` in the save handler appends to the `log` field of the state.
-/

/-- One parsed JSON argument object, abstracted as a list of key/value pairs
(the dispatch loop only passes it through to the tool implementation). -/
def Args : Type := List (String × String)

instance : DecidableEq Args := by
  unfold Args
  infer_instance

/-- The `function_call` part of an OpenAI chat-completion message:
`{name, arguments}` with `arguments` the raw (unparsed) JSON string. -/
structure FunctionCall where
  name : String
  arguments : String
deriving Repr, DecidableEq

/-- A chat message dict as built by `CampusAgent.chat` / `chat_stream`:
`{"role": ..., "content": ..., "name": ..., "function_call": ...}`. -/
structure Msg where
  role : String
  content : Option String := none
  name : Option String := none
  function_call : Option FunctionCall := none
deriving Repr, DecidableEq

/-- `response.choices[0].message` of a chat completion: free text content
and/or a structured function call, each possibly absent. -/
structure RespMessage where
  content : Option String := none
  function_call : Option FunctionCall := none
deriving Repr, DecidableEq

/-- The claim-relevant shape of a tool-call outcome dict
(`{"success": ..., "message": ...}`), as synthesized by
`CampusAgent._execute_function` and returned by the `CampusTools` methods. -/
structure ToolResult where
  success : Bool
  message : String
deriving Repr, DecidableEq

/-- `json.dumps(function_result)` for a `ToolResult`. -/
def serializeResult (r : ToolResult) : String :=
  "\x7b\"success\": " ++ (if r.success then "true" else "false") ++
    ", \"message\": \"" ++ r.message ++ "\"\x7d"

/-- A row of the `Conversation` table (`backend/db.py`): one chat exchange of
a session, with the user message, the assistant response and a timestamp. -/
structure ConvRow where
  session_id : String
  message : String
  response : Option String
  timestamp : Nat
deriving Repr, DecidableEq

/-- The mutable state of one `CampusAgent`: the `conversation_memory` dict
(an association list keyed by session id), the persisted `Conversation`
rows, the lines printed by the save error handler, and the timestamp
counter. -/
structure AgentState where
  memory : List (String × List Msg)
  rows : List ConvRow
  log : List String
  clock : Nat
deriving Repr, DecidableEq

/-- Lookup in the `conversation_memory` dict. -/
def memLookup (m : List (String × List Msg)) (sid : String) : Option (List Msg) :=
  match m with
  | [] => none
  | (k, v) :: rest => if k = sid then some v else memLookup rest sid

/-- Overwrite-or-insert in the `conversation_memory` dict. -/
def memUpdate (m : List (String × List Msg)) (sid : String) (h : List Msg) :
    List (String × List Msg) :=
  match m with
  | [] => [(sid, h)]
  | (k, v) :: rest =>
      if k = sid then (k, h) :: rest else (k, v) :: memUpdate rest sid h

/- ### Guardrails (`backend/utils.py`) -/

/-- The `BLOCKED_KEYWORDS` denylist of `backend/utils.py`. -/
def BLOCKED_KEYWORDS : List String :=
  ["hack", "bomb", "kill", "terrorist", "suicide", "murder", "drugs",
   "weapon", "rape", "abuse", "nude"]

/-- `p` is a prefix of `s` (character lists). -/
def startsWithL : List Char → List Char → Bool
  | _, [] => true
  | [], _ :: _ => false
  | c :: cs, d :: ds => c = d && startsWithL cs ds

/-- `p` occurs as a contiguous substring of `s` (character lists):
Python's `p in s`. -/
def containsL : List Char → List Char → Bool
  | [], p => p.isEmpty
  | s@(_ :: tail), p => startsWithL s p || containsL tail p

/-- Python `sub in s` on strings. -/
def containsSub (s sub : String) : Bool :=
  containsL s.data sub.data

/-- Python `s.lower()` (per-character lowercasing). -/
def lowerStr (s : String) : String :=
  String.mk (s.data.map Char.toLower)

/-- `check_guardrails` of `backend/utils.py`: returns `false` as soon as a
blocked keyword occurs in the lowercased message, else `true`. -/
def check_guardrails (message : String) : Bool :=
  BLOCKED_KEYWORDS.all (fun word => !(containsSub (lowerStr message) word))

/- ### Tool execution (`CampusAgent._execute_function`) -/

/-- The attribute names of the `CampusTools` class of `backend/tools.py`
(its methods plus the `client` field set in `__init__`); `hasattr(self.tools,
function_name)` in `_execute_function` is membership in this list. -/
def toolAttrNames : List String :=
  ["client", "get_student", "list_students", "update_student",
   "delete_student", "add_student", "get_total_students",
   "get_students_by_department", "get_recent_onboarded_students",
   "get_active_students_last_7_days", "get_cafeteria_timings",
   "get_library_hours", "get_event_schedule", "send_email", "_log_activity"]

/-- `CampusAgent._execute_function`: resolve the name against the tools
object; unknown names yield a not-found failure dict, and any exception the
implementation raises is caught and wrapped into a failure dict. -/
def execute_function (impl : String → Args → Except String ToolResult)
    (function_name : String) (arguments : Args) : ToolResult :=
  if toolAttrNames.contains function_name then
    match impl function_name arguments with
    | .ok result => result
    | .error e =>
        { success := false,
          message := "Error executing " ++ function_name ++ ": " ++ e }
  else
    { success := false, message := "Function " ++ function_name ++ " not found" }

/- ### Conversation history (`CampusAgent._get_conversation_history`) -/

/-- Expand `Conversation` rows into alternating user/assistant messages, the
loop body of `_get_conversation_history`. -/
def expandRows : List ConvRow → List Msg
  | [] => []
  | conv :: rest =>
      { role := "user", content := some conv.message } ::
      { role := "assistant", content := conv.response } ::
      expandRows rest

/-- Insert a row into a list sorted by ascending timestamp. -/
def insertByTs (c : ConvRow) : List ConvRow → List ConvRow
  | [] => [c]
  | d :: ds => if c.timestamp ≤ d.timestamp then c :: d :: ds else d :: insertByTs c ds

/-- The store's `ORDER BY timestamp` as an insertion sort. -/
def sortByTs : List ConvRow → List ConvRow
  | [] => []
  | c :: cs => insertByTs c (sortByTs cs)

/-- `CampusAgent._get_conversation_history`: serve from the in-memory cache,
else load at most the 10 oldest rows of the session from the store, expand
them to messages and cache the result. -/
def get_conversation_history (sid : String) (st : AgentState) :
    List Msg × AgentState :=
  match memLookup st.memory sid with
  | some h => (h, st)
  | none =>
      let conversations :=
        (sortByTs (st.rows.filter (fun r => r.session_id == sid))).take 10
      let history := expandRows conversations
      (history, { st with memory := memUpdate st.memory sid history })

/- ### Saving a turn (`CampusAgent._save_conversation`) -/

/-- `CampusAgent._save_conversation`: commit one `Conversation` row, then
append the user/assistant pair to the in-memory history and trim it to the
last 20 messages; a failing commit is caught and printed, leaving rows and
memory unchanged. -/
def save_conversation (commit : ConvRow → Except String Unit)
    (sid message : String) (response : Option String) (st : AgentState) :
    AgentState :=
  let conversation : ConvRow :=
    { session_id := sid, message := message, response := response,
      timestamp := st.clock }
  match commit conversation with
  | .error e => { st with log := st.log ++ ["Error saving conversation: " ++ e] }
  | .ok _ =>
      let mem0 := (memLookup st.memory sid).getD []
      let mem1 := mem0 ++
        [{ role := "user", content := some message },
         { role := "assistant", content := response }]
      let mem2 := if mem1.length > 20 then mem1.drop (mem1.length - 20) else mem1
      { st with rows := st.rows ++ [conversation],
                memory := memUpdate st.memory sid mem2,
                clock := st.clock + 1 }

/- ### The dispatch loop (`CampusAgent.chat`) -/

/-- The system preamble of the synchronous `chat` method. -/
def SYSTEM_PROMPT_SYNC : String :=
  "You are a helpful Campus Admin Agent AI assistant. You can help with:\n\n1. Student Management: Add, update, delete, and retrieve student information\n2. Campus Analytics: Provide statistics about students, departments, and activities\n3. Campus Information: Share details about cafeteria timings, library hours, and events\n4. Communication: Send emails to students (mock implementation)\n\nYou have access to various tools to interact with the campus database. Always be helpful, professional, and provide accurate information. When users ask for student operations, use the appropriate tools to perform the requested actions.\n\nIf you need to perform any database operations, use the available function calls. Always confirm successful operations and provide clear feedback to users."

/-- The system preamble of the streaming `chat_stream` method (it lacks the
final paragraph of the synchronous preamble). -/
def SYSTEM_PROMPT_STREAM : String :=
  "You are a helpful Campus Admin Agent AI assistant. You can help with:\n\n1. Student Management: Add, update, delete, and retrieve student information\n2. Campus Analytics: Provide statistics about students, departments, and activities\n3. Campus Information: Share details about cafeteria timings, library hours, and events\n4. Communication: Send emails to students (mock implementation)\n\nYou have access to various tools to interact with the campus database. Always be helpful, professional, and provide accurate information. When users ask for student operations, use the appropriate tools to perform the requested actions."

/-- `messages = [system] + history + [user message]`. -/
def buildMessages (systemPrompt : String) (history : List Msg)
    (message : String) : List Msg :=
  ({ role := "system", content := some systemPrompt } :: history) ++
    [{ role := "user", content := some message }]

/-- `if not session_id: session_id = str(uuid.uuid4())` — Python treats both
`None` and the empty string as falsy; `freshId` stands for the generated
UUID. -/
def effectiveSid (sessionId : Option String) (freshId : String) : String :=
  match sessionId with
  | none => freshId
  | some s => if s = "" then freshId else s

/-- The two messages appended before the phrasing call: the assistant's
function-call intent (content `None`) and the function-role message carrying
the serialized result. -/
def toolExchangeMsgs (fc : FunctionCall) (function_result : ToolResult) :
    List Msg :=
  [{ role := "assistant", content := none,
     function_call := some { name := fc.name, arguments := fc.arguments } },
   { role := "function", name := some fc.name,
     content := some (serializeResult function_result) }]

/-- The return dict of `CampusAgent.chat`. -/
structure ChatResult where
  response : Option String
  session_id : String
  success : Bool
  error : Option String := none
deriving Repr, DecidableEq

/-- `CampusAgent.chat`: load history, build the prompt, call the reasoning
service with the function schemas; on a function call, parse the arguments
(a parse failure propagates to the turn-level handler), execute the tool,
append the exchange and call the service again for the phrasing; save the
turn and return the result dict. The final `Nat` counts the reasoning-service
calls made during the turn. -/
def chat (svc : List Msg → Bool → RespMessage)
    (parse : String → Except String Args)
    (impl : String → Args → Except String ToolResult)
    (commit : ConvRow → Except String Unit)
    (freshId : String) (message : String) (sessionId : Option String)
    (st : AgentState) : ChatResult × AgentState × Nat :=
  let sid := effectiveSid sessionId freshId
  let (history, st1) := get_conversation_history sid st
  let messages := buildMessages SYSTEM_PROMPT_SYNC history message
  let response_message := svc messages true
  match response_message.function_call with
  | some fc =>
      match parse fc.arguments with
      | .error e =>
          ({ response := some ("I apologize, but I encountered an error: " ++ e),
             session_id := sid, success := false, error := some e }, st1, 1)
      | .ok function_args =>
          let function_result := execute_function impl fc.name function_args
          let messages2 := messages ++ toolExchangeMsgs fc function_result
          let final_message := (svc messages2 false).content
          let st2 := save_conversation commit sid message final_message st1
          ({ response := final_message, session_id := sid, success := true },
           st2, 2)
  | none =>
      let final_message := response_message.content
      let st2 := save_conversation commit sid message final_message st1
      ({ response := final_message, session_id := sid, success := true },
       st2, 1)

/- ### The streaming variant (`CampusAgent.chat_stream`) -/

/-- One server-sent event yielded by `chat_stream` (the `data: {...}` JSON
payloads, modelled structurally). -/
inductive StreamEvent where
  | content (text : String) (sid : String)
  | error (text : String) (sid : String)
  | done (sid : String)
deriving Repr, DecidableEq

/-- The chunk loop of `chat_stream`: skip chunks whose delta content is
`None`, emit an event per remaining chunk, and accumulate `full_response`. -/
def emitChunks (sid : String) : List (Option String) → List StreamEvent × String
  | [] => ([], "")
  | none :: rest => emitChunks sid rest
  | some c :: rest =>
      let r := emitChunks sid rest
      (StreamEvent.content c sid :: r.fst, c ++ r.snd)

/-- `CampusAgent.chat_stream`: same first reasoning call as `chat` (but with
the shorter streaming preamble); the phrasing (or the direct reply) comes
from a streaming request without function schemas, each fragment is yielded
as an event, the concatenation is saved, and a `done` event closes the
stream. Any exception (in particular an argument-parse failure) is caught
and yielded as an error event followed by `done`. -/
def chat_stream (svc : List Msg → Bool → RespMessage)
    (svcStream : List Msg → List (Option String))
    (parse : String → Except String Args)
    (impl : String → Args → Except String ToolResult)
    (commit : ConvRow → Except String Unit)
    (freshId : String) (message : String) (sessionId : Option String)
    (st : AgentState) : List StreamEvent × AgentState :=
  let sid := effectiveSid sessionId freshId
  let (history, st1) := get_conversation_history sid st
  let messages := buildMessages SYSTEM_PROMPT_STREAM history message
  let response_message := svc messages true
  match response_message.function_call with
  | some fc =>
      match parse fc.arguments with
      | .error e =>
          ([StreamEvent.error ("I apologize, but I encountered an error: " ++ e) sid,
            StreamEvent.done sid], st1)
      | .ok function_args =>
          let function_result := execute_function impl fc.name function_args
          let messages2 := messages ++ toolExchangeMsgs fc function_result
          let r := emitChunks sid (svcStream messages2)
          let st2 := save_conversation commit sid message (some r.snd) st1
          (r.fst ++ [StreamEvent.done sid], st2)
  | none =>
      let r := emitChunks sid (svcStream messages)
      let st2 := save_conversation commit sid message (some r.snd) st1
      (r.fst ++ [StreamEvent.done sid], st2)

/-- Concatenation of the content fragments of a stream of events. -/
def concatContents : List StreamEvent → String
  | [] => ""
  | StreamEvent.content c _ :: rest => c ++ concatContents rest
  | _ :: rest => concatContents rest

/-- Concatenation of the non-null delta contents of a chunk list. -/
def chunkConcat : List (Option String) → String
  | [] => ""
  | none :: rest => chunkConcat rest
  | some c :: rest => c ++ chunkConcat rest

/- ### Derived views of a turn, shared by the theorems below -/

/-- The history returned for a session by `_get_conversation_history`. -/
def histMsgs (sid : String) (st : AgentState) : List Msg :=
  (get_conversation_history sid st).fst

/-- The agent state after `_get_conversation_history` (the cache possibly
filled). -/
def histSt (sid : String) (st : AgentState) : AgentState :=
  (get_conversation_history sid st).snd

/-- The message list `chat` sends on its first reasoning call. -/
def syncMsgs (sid message : String) (st : AgentState) : List Msg :=
  buildMessages SYSTEM_PROMPT_SYNC (histMsgs sid st) message

/-- The message list `chat_stream` sends on its first reasoning call. -/
def streamMsgs (sid message : String) (st : AgentState) : List Msg :=
  buildMessages SYSTEM_PROMPT_STREAM (histMsgs sid st) message

/- ### Substring lemmas for the guardrail -/

lemma startsWithL_iff (p : List Char) : ∀ s : List Char,
    startsWithL s p = true ↔ p <+: s := by
  induction p with
  | nil => intro s; simp [startsWithL]
  | cons d ds ih =>
      intro s
      cases s with
      | nil => simp [startsWithL]
      | cons c cs =>
          simp only [startsWithL, Bool.and_eq_true, decide_eq_true_eq, ih,
            List.cons_prefix_cons]
          exact ⟨fun h => ⟨h.1.symm, h.2⟩, fun h => ⟨h.1.symm, h.2⟩⟩

lemma containsL_iff (p : List Char) : ∀ s : List Char,
    containsL s p = true ↔ p <:+: s := by
  intro s
  induction s with
  | nil => simp [containsL, List.isEmpty_iff]
  | cons c cs ih =>
      rw [containsL]
      simp only [Bool.or_eq_true, startsWithL_iff, ih]
      exact (List.infix_cons_iff).symm

lemma containsSub_iff (s sub : String) :
    containsSub s sub = true ↔ sub.data <:+: s.data := by
  simp [containsSub, containsL_iff]

/- ### State bookkeeping lemmas -/

lemma get_conversation_history_rows (sid : String) (st : AgentState) :
    (histSt sid st).rows = st.rows := by
  unfold histSt get_conversation_history
  cases memLookup st.memory sid <;> simp

lemma get_conversation_history_log (sid : String) (st : AgentState) :
    (histSt sid st).log = st.log := by
  unfold histSt get_conversation_history
  cases memLookup st.memory sid <;> simp

lemma get_conversation_history_clock (sid : String) (st : AgentState) :
    (histSt sid st).clock = st.clock := by
  unfold histSt get_conversation_history
  cases memLookup st.memory sid <;> simp

/- ### Branch characterizations of `chat` -/

lemma chat_direct (svc : List Msg → Bool → RespMessage)
    (parse : String → Except String Args)
    (impl : String → Args → Except String ToolResult)
    (commit : ConvRow → Except String Unit)
    (freshId message : String) (sessionId : Option String) (st : AgentState)
    (sid : String) (hsid : effectiveSid sessionId freshId = sid)
    (hfc : (svc (syncMsgs sid message st) true).function_call = none) :
    chat svc parse impl commit freshId message sessionId st =
      ({ response := (svc (syncMsgs sid message st) true).content,
         session_id := sid, success := true, error := none },
       save_conversation commit sid message
         (svc (syncMsgs sid message st) true).content (histSt sid st), 1) := by
  rcases hE : get_conversation_history sid st with ⟨hist, st1⟩
  simp only [syncMsgs, histMsgs, histSt, hE] at hfc ⊢
  simp only [chat, hsid, hE]
  simp [hfc]

lemma chat_parse_error (svc : List Msg → Bool → RespMessage)
    (parse : String → Except String Args)
    (impl : String → Args → Except String ToolResult)
    (commit : ConvRow → Except String Unit)
    (freshId message : String) (sessionId : Option String) (st : AgentState)
    (sid : String) (fc : FunctionCall) (e : String)
    (hsid : effectiveSid sessionId freshId = sid)
    (hfc : (svc (syncMsgs sid message st) true).function_call = some fc)
    (hparse : parse fc.arguments = Except.error e) :
    chat svc parse impl commit freshId message sessionId st =
      ({ response := some ("I apologize, but I encountered an error: " ++ e),
         session_id := sid, success := false, error := some e },
       histSt sid st, 1) := by
  rcases hE : get_conversation_history sid st with ⟨hist, st1⟩
  simp only [syncMsgs, histMsgs, histSt, hE] at hfc ⊢
  simp only [chat, hsid, hE]
  simp [hfc, hparse]

lemma chat_tool (svc : List Msg → Bool → RespMessage)
    (parse : String → Except String Args)
    (impl : String → Args → Except String ToolResult)
    (commit : ConvRow → Except String Unit)
    (freshId message : String) (sessionId : Option String) (st : AgentState)
    (sid : String) (fc : FunctionCall) (args : Args)
    (hsid : effectiveSid sessionId freshId = sid)
    (hfc : (svc (syncMsgs sid message st) true).function_call = some fc)
    (hparse : parse fc.arguments = Except.ok args) :
    chat svc parse impl commit freshId message sessionId st =
      ({ response := (svc (syncMsgs sid message st ++
            toolExchangeMsgs fc (execute_function impl fc.name args)) false).content,
         session_id := sid, success := true, error := none },
       save_conversation commit sid message
         (svc (syncMsgs sid message st ++
            toolExchangeMsgs fc (execute_function impl fc.name args)) false).content
         (histSt sid st), 2) := by
  rcases hE : get_conversation_history sid st with ⟨hist, st1⟩
  simp only [syncMsgs, histMsgs, histSt, hE] at hfc ⊢
  simp only [chat, hsid, hE]
  simp [hfc, hparse]

/- ### Branch characterization of `chat_stream` and chunk lemmas -/

lemma emitChunks_snd (sid : String) : ∀ l : List (Option String),
    (emitChunks sid l).snd = chunkConcat l := by
  intro l
  induction l with
  | nil => rfl
  | cons c rest ih => cases c <;> simp [emitChunks, chunkConcat, ih]

lemma concatContents_emitChunks (sid : String) : ∀ l : List (Option String),
    concatContents (emitChunks sid l).fst = chunkConcat l := by
  intro l
  induction l with
  | nil => rfl
  | cons c rest ih => cases c <;> simp [emitChunks, chunkConcat, concatContents, ih]

lemma concatContents_append_done (evs : List StreamEvent) (sid : String) :
    concatContents (evs ++ [StreamEvent.done sid]) = concatContents evs := by
  induction evs with
  | nil => rfl
  | cons e rest ih => cases e <;> simp [concatContents, ih]

lemma chat_stream_direct (svc : List Msg → Bool → RespMessage)
    (svcStream : List Msg → List (Option String))
    (parse : String → Except String Args)
    (impl : String → Args → Except String ToolResult)
    (commit : ConvRow → Except String Unit)
    (freshId message : String) (sessionId : Option String) (st : AgentState)
    (sid : String) (hsid : effectiveSid sessionId freshId = sid)
    (hfc : (svc (streamMsgs sid message st) true).function_call = none) :
    chat_stream svc svcStream parse impl commit freshId message sessionId st =
      ((emitChunks sid (svcStream (streamMsgs sid message st))).fst ++
         [StreamEvent.done sid],
       save_conversation commit sid message
         (some (emitChunks sid (svcStream (streamMsgs sid message st))).snd)
         (histSt sid st)) := by
  rcases hE : get_conversation_history sid st with ⟨hist, st1⟩
  simp only [streamMsgs, histMsgs, histSt, hE] at hfc ⊢
  simp only [chat_stream, hsid, hE]
  simp [hfc]

/- ### Claim theorems -/

/-- C8: `check_guardrails` is a pure function of its text argument (it is a
plain function of the message in this embedding, touching no state), and it
returns `false` exactly when some denylisted keyword occurs as a substring of
the lowercased message. -/
theorem check_guardrails_false_iff (message : String) :
    check_guardrails message = false ↔
      ∃ word ∈ BLOCKED_KEYWORDS, word.data <:+: (lowerStr message).data := by
  rw [Bool.eq_false_iff]
  simp only [check_guardrails, Ne, List.all_eq_true, Bool.not_eq_true',
    Bool.not_eq_false]
  push_neg
  simp only [Bool.ne_false_iff, containsSub_iff]

/-- C1: the guardrail is dead code — `check_guardrails` does flag the
denylisted message `"how to hack the mainframe"`, yet `CampusAgent.chat`
never consults it: the turn still performs a reasoning-service call and
persists a conversation row for the blocked message. -/
theorem guardrails_not_wired_into_chat :
    check_guardrails "how to hack the mainframe" = false ∧
    (let r := chat
        (fun _ _ => { content := some "Sure, I can help with that!",
                      function_call := none })
        (fun _ => Except.error "Expecting value")
        (fun _ _ => Except.ok { success := true, message := "ok" })
        (fun _ => Except.ok ())
        "u1" "how to hack the mainframe" (some "s1")
        { memory := [], rows := [], log := [], clock := 0 }
     r.snd.snd = 1 ∧
     r.snd.fst.rows =
       [{ session_id := "s1", message := "how to hack the mainframe",
          response := some "Sure, I can help with that!", timestamp := 0 }]) := by
  exact ⟨by decide, by decide, by decide⟩

/-- C4: a `ToolCallRequest` naming a function absent from the tools object
yields a `{success := false}` not-found result, without throwing and without
consulting any tool implementation (the result is the same for any two
implementations), and the turn still completes normally with the phrasing
call. -/
theorem unknown_function_not_found
    (svc : List Msg → Bool → RespMessage) (parse : String → Except String Args)
    (impl impl2 : String → Args → Except String ToolResult)
    (commit : ConvRow → Except String Unit)
    (freshId message : String) (sessionId : Option String) (st : AgentState)
    (sid : String) (fc : FunctionCall) (args : Args)
    (hsid : effectiveSid sessionId freshId = sid)
    (hname : toolAttrNames.contains fc.name = false)
    (hfc : (svc (syncMsgs sid message st) true).function_call = some fc)
    (hparse : parse fc.arguments = Except.ok args) :
    execute_function impl fc.name args =
      { success := false, message := "Function " ++ fc.name ++ " not found" } ∧
    execute_function impl2 fc.name args = execute_function impl fc.name args ∧
    (chat svc parse impl commit freshId message sessionId st).fst.success = true ∧
    (chat svc parse impl commit freshId message sessionId st).snd.snd = 2 := by
  have hexec : ∀ i : String → Args → Except String ToolResult,
      execute_function i fc.name args =
        { success := false, message := "Function " ++ fc.name ++ " not found" } := by
    intro i
    have hmem : fc.name ∉ toolAttrNames := by simpa using hname
    simp [execute_function, hmem]
  refine ⟨hexec impl, by rw [hexec impl2, hexec impl], ?_⟩
  rw [chat_tool svc parse impl commit freshId message sessionId st sid fc args
    hsid hfc hparse]
  exact ⟨rfl, rfl⟩

/-- Witness for C4: the unknown name `"no_such_tool"` at a concrete turn. -/
theorem unknown_function_not_found_witness :
    execute_function (fun _ _ => Except.ok { success := true, message := "ok" })
        "no_such_tool" [] =
      { success := false,
        message := "Function " ++ "no_such_tool" ++ " not found" } ∧
    execute_function (fun _ _ => Except.error "boom") "no_such_tool" [] =
      execute_function (fun _ _ => Except.ok { success := true, message := "ok" })
        "no_such_tool" [] ∧
    (chat
      (fun _ withTools => if withTools
        then { content := none,
               function_call := some { name := "no_such_tool", arguments := "\x7b\x7d" } }
        else { content := some "Sorry, that tool does not exist.",
               function_call := none })
      (fun _ => Except.ok [])
      (fun _ _ => Except.ok { success := true, message := "ok" })
      (fun _ => Except.ok ())
      "u1" "call the mystery tool" (some "s4")
      { memory := [], rows := [], log := [], clock := 0 }).fst.success = true ∧
    (chat
      (fun _ withTools => if withTools
        then { content := none,
               function_call := some { name := "no_such_tool", arguments := "\x7b\x7d" } }
        else { content := some "Sorry, that tool does not exist.",
               function_call := none })
      (fun _ => Except.ok [])
      (fun _ _ => Except.ok { success := true, message := "ok" })
      (fun _ => Except.ok ())
      "u1" "call the mystery tool" (some "s4")
      { memory := [], rows := [], log := [], clock := 0 }).snd.snd = 2 :=
  unknown_function_not_found
    (fun _ withTools => if withTools
      then { content := none,
             function_call := some { name := "no_such_tool", arguments := "\x7b\x7d" } }
      else { content := some "Sorry, that tool does not exist.",
             function_call := none })
    (fun _ => Except.ok [])
    (fun _ _ => Except.ok { success := true, message := "ok" })
    (fun _ _ => Except.error "boom")
    (fun _ => Except.ok ())
    "u1" "call the mystery tool" (some "s4")
    { memory := [], rows := [], log := [], clock := 0 }
    "s4" { name := "no_such_tool", arguments := "\x7b\x7d" } []
    (by decide) (by decide) rfl rfl

/-- C5: an exception raised by a registered tool implementation is caught at
the `_execute_function` boundary and converted into a
`{success := false, message := ...}` result (the boundary is a total
function, so nothing escapes), and the turn still completes normally. -/
theorem tool_exception_wrapped
    (svc : List Msg → Bool → RespMessage) (parse : String → Except String Args)
    (impl : String → Args → Except String ToolResult)
    (commit : ConvRow → Except String Unit)
    (freshId message : String) (sessionId : Option String) (st : AgentState)
    (sid : String) (fc : FunctionCall) (args : Args) (e : String)
    (hsid : effectiveSid sessionId freshId = sid)
    (hname : toolAttrNames.contains fc.name = true)
    (himpl : impl fc.name args = Except.error e)
    (hfc : (svc (syncMsgs sid message st) true).function_call = some fc)
    (hparse : parse fc.arguments = Except.ok args) :
    execute_function impl fc.name args =
      { success := false,
        message := "Error executing " ++ fc.name ++ ": " ++ e } ∧
    (chat svc parse impl commit freshId message sessionId st).fst.success = true ∧
    (chat svc parse impl commit freshId message sessionId st).snd.snd = 2 := by
  have hmem : fc.name ∈ toolAttrNames := by simpa using hname
  refine ⟨by simp [execute_function, hmem, himpl], ?_⟩
  rw [chat_tool svc parse impl commit freshId message sessionId st sid fc args
    hsid hfc hparse]
  exact ⟨rfl, rfl⟩

/-- Witness for C5: a raising `send_email` implementation at a concrete
turn. -/
theorem tool_exception_wrapped_witness :
    execute_function (fun _ _ => Except.error "SMTP unreachable")
        "send_email" [("student_id", "ST001")] =
      { success := false,
        message := "Error executing " ++ "send_email" ++ ": " ++ "SMTP unreachable" } ∧
    (chat
      (fun _ withTools => if withTools
        then { content := none,
               function_call := some { name := "send_email", arguments := "argjson" } }
        else { content := some "I could not send the email.",
               function_call := none })
      (fun _ => Except.ok [("student_id", "ST001")])
      (fun _ _ => Except.error "SMTP unreachable")
      (fun _ => Except.ok ())
      "u1" "email ST001" (some "s5")
      { memory := [], rows := [], log := [], clock := 0 }).fst.success = true ∧
    (chat
      (fun _ withTools => if withTools
        then { content := none,
               function_call := some { name := "send_email", arguments := "argjson" } }
        else { content := some "I could not send the email.",
               function_call := none })
      (fun _ => Except.ok [("student_id", "ST001")])
      (fun _ _ => Except.error "SMTP unreachable")
      (fun _ => Except.ok ())
      "u1" "email ST001" (some "s5")
      { memory := [], rows := [], log := [], clock := 0 }).snd.snd = 2 :=
  tool_exception_wrapped
    (fun _ withTools => if withTools
      then { content := none,
             function_call := some { name := "send_email", arguments := "argjson" } }
      else { content := some "I could not send the email.",
             function_call := none })
    (fun _ => Except.ok [("student_id", "ST001")])
    (fun _ _ => Except.error "SMTP unreachable")
    (fun _ => Except.ok ())
    "u1" "email ST001" (some "s5")
    { memory := [], rows := [], log := [], clock := 0 }
    "s5" { name := "send_email", arguments := "argjson" }
    [("student_id", "ST001")] "SMTP unreachable"
    (by decide) (by decide) rfl rfl rfl

/-- Verification scaffolding (not from the source): the same reasoning
service with the free-text content of its response at the given request
erased. Used to state that the dispatch loop never reads that content. -/
def contentErased (svc : List Msg → Bool → RespMessage) (m0 : List Msg) :
    List Msg → Bool → RespMessage :=
  fun m b =>
    if m = m0 ∧ b = true then
      { content := none, function_call := (svc m b).function_call }
    else svc m b

/-- C6: when the first reasoning response carries both a `function_call` and
non-null content, `chat` takes the function-call branch: the final answer is
the phrasing call's content, the turn makes two reasoning calls, and the
accompanying direct content is discarded — erasing it from the response
changes nothing about the turn. -/
theorem function_call_takes_precedence
    (svc : List Msg → Bool → RespMessage) (parse : String → Except String Args)
    (impl : String → Args → Except String ToolResult)
    (commit : ConvRow → Except String Unit)
    (freshId message : String) (sessionId : Option String) (st : AgentState)
    (sid : String) (fc : FunctionCall) (c : String) (args : Args)
    (hsid : effectiveSid sessionId freshId = sid)
    (hresp : svc (syncMsgs sid message st) true =
      { content := some c, function_call := some fc })
    (hparse : parse fc.arguments = Except.ok args) :
    (chat svc parse impl commit freshId message sessionId st).fst.response =
      (svc (syncMsgs sid message st ++
        toolExchangeMsgs fc (execute_function impl fc.name args)) false).content ∧
    (chat svc parse impl commit freshId message sessionId st).snd.snd = 2 ∧
    chat (contentErased svc (syncMsgs sid message st)) parse impl commit
        freshId message sessionId st =
      chat svc parse impl commit freshId message sessionId st := by
  have hfc : (svc (syncMsgs sid message st) true).function_call = some fc := by
    rw [hresp]
  have h1 := chat_tool svc parse impl commit freshId message sessionId st sid
    fc args hsid hfc hparse
  have hfcE : ((contentErased svc (syncMsgs sid message st))
      (syncMsgs sid message st) true).function_call = some fc := by
    simp [contentErased, hfc]
  have h2 := chat_tool (contentErased svc (syncMsgs sid message st)) parse impl
    commit freshId message sessionId st sid fc args hsid hfcE hparse
  have hout : contentErased svc (syncMsgs sid message st)
      (syncMsgs sid message st ++
        toolExchangeMsgs fc (execute_function impl fc.name args)) false =
      svc (syncMsgs sid message st ++
        toolExchangeMsgs fc (execute_function impl fc.name args)) false := by
    simp [contentErased]
  exact ⟨by rw [h1], by rw [h1], by rw [h1, h2, hout]⟩

/-- Witness for C6: a concrete response carrying both a function call and
direct content. -/
theorem function_call_takes_precedence_witness :
    (chat
      (fun _ b => if b
        then { content := some "I can answer directly.",
               function_call := some { name := "get_library_hours",
                                       arguments := "\x7b\x7d" } }
        else { content := some "The library is open 8am to 10pm.",
               function_call := none })
      (fun _ => Except.ok [])
      (fun _ _ => Except.ok { success := true, message := "Library: 8am-10pm" })
      (fun _ => Except.ok ())
      "u1" "when is the library open" (some "s6")
      { memory := [], rows := [], log := [], clock := 0 }).fst.response =
      ((fun (_ : List Msg) (b : Bool) => if b
        then { content := some "I can answer directly.",
               function_call := some { name := "get_library_hours",
                                       arguments := "\x7b\x7d" } }
        else ({ content := some "The library is open 8am to 10pm.",
                function_call := none } : RespMessage))
        (syncMsgs "s6" "when is the library open"
            { memory := [], rows := [], log := [], clock := 0 } ++
          toolExchangeMsgs { name := "get_library_hours", arguments := "\x7b\x7d" }
            (execute_function
              (fun _ _ => Except.ok { success := true, message := "Library: 8am-10pm" })
              "get_library_hours" [])) false).content ∧
    (chat
      (fun _ b => if b
        then { content := some "I can answer directly.",
               function_call := some { name := "get_library_hours",
                                       arguments := "\x7b\x7d" } }
        else { content := some "The library is open 8am to 10pm.",
               function_call := none })
      (fun _ => Except.ok [])
      (fun _ _ => Except.ok { success := true, message := "Library: 8am-10pm" })
      (fun _ => Except.ok ())
      "u1" "when is the library open" (some "s6")
      { memory := [], rows := [], log := [], clock := 0 }).snd.snd = 2 ∧
    chat
      (contentErased
        (fun _ b => if b
          then { content := some "I can answer directly.",
                 function_call := some { name := "get_library_hours",
                                         arguments := "\x7b\x7d" } }
          else { content := some "The library is open 8am to 10pm.",
                 function_call := none })
        (syncMsgs "s6" "when is the library open"
          { memory := [], rows := [], log := [], clock := 0 }))
      (fun _ => Except.ok [])
      (fun _ _ => Except.ok { success := true, message := "Library: 8am-10pm" })
      (fun _ => Except.ok ())
      "u1" "when is the library open" (some "s6")
      { memory := [], rows := [], log := [], clock := 0 } =
    chat
      (fun _ b => if b
        then { content := some "I can answer directly.",
               function_call := some { name := "get_library_hours",
                                       arguments := "\x7b\x7d" } }
        else { content := some "The library is open 8am to 10pm.",
               function_call := none })
      (fun _ => Except.ok [])
      (fun _ _ => Except.ok { success := true, message := "Library: 8am-10pm" })
      (fun _ => Except.ok ())
      "u1" "when is the library open" (some "s6")
      { memory := [], rows := [], log := [], clock := 0 } :=
  function_call_takes_precedence
    (fun _ b => if b
      then { content := some "I can answer directly.",
             function_call := some { name := "get_library_hours",
                                     arguments := "\x7b\x7d" } }
      else { content := some "The library is open 8am to 10pm.",
             function_call := none })
    (fun _ => Except.ok [])
    (fun _ _ => Except.ok { success := true, message := "Library: 8am-10pm" })
    (fun _ => Except.ok ())
    "u1" "when is the library open" (some "s6")
    { memory := [], rows := [], log := [], clock := 0 }
    "s6" { name := "get_library_hours", arguments := "\x7b\x7d" }
    "I can answer directly." []
    (by decide) rfl rfl

/-- C2 counterexample: a completed tool-call turn persists only one
conversation row — which replays as two messages (user input and final
assistant text) — not three; neither the function-call intent nor the tool
result reaches the persisted history or the in-memory history. -/
theorem tool_turn_persists_two_not_three :
    (let r := chat
        (fun _ withTools => if withTools
          then { content := none,
                 function_call := some { name := "get_library_hours",
                                         arguments := "\x7b\x7d" } }
          else { content := some "The library is open 8am to 10pm.",
                 function_call := none })
        (fun _ => Except.ok [])
        (fun _ _ => Except.ok { success := true, message := "Library: 8am-10pm" })
        (fun _ => Except.ok ())
        "u1" "library hours?" (some "s2")
        { memory := [], rows := [], log := [], clock := 0 }
     r.snd.snd = 2 ∧
     r.snd.fst.rows =
       [{ session_id := "s2", message := "library hours?",
          response := some "The library is open 8am to 10pm.", timestamp := 0 }] ∧
     expandRows r.snd.fst.rows =
       [{ role := "user", content := some "library hours?" },
        { role := "assistant", content := some "The library is open 8am to 10pm." }] ∧
     memLookup r.snd.fst.memory "s2" =
       some [{ role := "user", content := some "library hours?" },
             { role := "assistant",
               content := some "The library is open 8am to 10pm." }]) := by
  exact ⟨by decide, by decide, by decide, by decide⟩

/-- C2 (amended): every turn that completes successfully — direct reply and
tool-call turn alike — appends exactly one conversation row to the persisted
history, pairing the user message with the final assistant text. -/
theorem turn_persists_single_row
    (svc : List Msg → Bool → RespMessage) (parse : String → Except String Args)
    (impl : String → Args → Except String ToolResult)
    (commit : ConvRow → Except String Unit)
    (freshId message : String) (sessionId : Option String) (st : AgentState)
    (sid : String)
    (hsid : effectiveSid sessionId freshId = sid)
    (hcommit : ∀ row, commit row = Except.ok ())
    (hok : (chat svc parse impl commit freshId message sessionId st).fst.success
      = true) :
    (chat svc parse impl commit freshId message sessionId st).snd.fst.rows =
      st.rows ++
        [{ session_id := sid, message := message,
           response :=
             (chat svc parse impl commit freshId message sessionId st).fst.response,
           timestamp := st.clock }] := by
  cases hfc : (svc (syncMsgs sid message st) true).function_call with
  | none =>
      rw [chat_direct svc parse impl commit freshId message sessionId st sid
        hsid hfc]
      simp [save_conversation, hcommit]
      rw [get_conversation_history_rows, get_conversation_history_clock]
  | some fc =>
      cases hparse : parse fc.arguments with
      | error e =>
          rw [chat_parse_error svc parse impl commit freshId message sessionId
            st sid fc e hsid hfc hparse] at hok
          simp at hok
      | ok args =>
          rw [chat_tool svc parse impl commit freshId message sessionId st sid
            fc args hsid hfc hparse]
          simp [save_conversation, hcommit]
          rw [get_conversation_history_rows, get_conversation_history_clock]

/-- Witness for the amended C2 at a concrete direct-reply turn. -/
theorem turn_persists_single_row_witness :
    (chat (fun _ _ => { content := some "Hello!", function_call := none })
      (fun _ => Except.error "unused")
      (fun _ _ => Except.ok { success := true, message := "ok" })
      (fun _ => Except.ok ())
      "u1" "hi" (some "s8")
      { memory := [], rows := [], log := [], clock := 0 }).snd.fst.rows =
      ({ memory := [], rows := [], log := [], clock := 0 } : AgentState).rows ++
        [{ session_id := "s8", message := "hi",
           response :=
             (chat (fun _ _ => { content := some "Hello!", function_call := none })
               (fun _ => Except.error "unused")
               (fun _ _ => Except.ok { success := true, message := "ok" })
               (fun _ => Except.ok ())
               "u1" "hi" (some "s8")
               { memory := [], rows := [], log := [], clock := 0 }).fst.response,
           timestamp := 0 }] :=
  turn_persists_single_row
    (fun _ _ => { content := some "Hello!", function_call := none })
    (fun _ => Except.error "unused")
    (fun _ _ => Except.ok { success := true, message := "ok" })
    (fun _ => Except.ok ())
    "u1" "hi" (some "s8")
    { memory := [], rows := [], log := [], clock := 0 }
    "s8" (by decide) (fun _ => rfl) (by decide)

/-- C3 counterexample: a `ToolCallRequest` whose arguments fail to parse does
not continue the turn with a synthesized failure `ToolCallResult`: only one
reasoning call is made, the caller receives a turn-level error dict, and
nothing at all is persisted for the turn. -/
theorem malformed_arguments_not_recorded :
    (let r := chat
        (fun _ withTools => if withTools
          then { content := none,
                 function_call := some { name := "get_student",
                                         arguments := "notjson" } }
          else { content := some "unreachable", function_call := none })
        (fun _ => Except.error "Expecting value: line 1 column 1 (char 0)")
        (fun _ _ => Except.ok { success := true, message := "ok" })
        (fun _ => Except.ok ())
        "u1" "get student ST001" (some "s3")
        { memory := [], rows := [], log := [], clock := 0 }
     r.fst.success = false ∧
     r.fst.error = some "Expecting value: line 1 column 1 (char 0)" ∧
     r.snd.snd = 1 ∧
     r.snd.fst.rows = []) := by
  exact ⟨by decide, by decide, by decide, by decide⟩

/-- C3 (amended): on a `ToolCallRequest` whose arguments string fails to
parse, the parse exception is caught only by the turn-level handler of
`chat`: the caller receives an apologetic `{success := false}` error dict,
no tool executes, no second reasoning call happens, and nothing is persisted
for the turn (rows and log are unchanged; only the history cache may have
been filled). -/
theorem malformed_arguments_abort_turn
    (svc : List Msg → Bool → RespMessage) (parse : String → Except String Args)
    (impl : String → Args → Except String ToolResult)
    (commit : ConvRow → Except String Unit)
    (freshId message : String) (sessionId : Option String) (st : AgentState)
    (sid : String) (fc : FunctionCall) (e : String)
    (hsid : effectiveSid sessionId freshId = sid)
    (hfc : (svc (syncMsgs sid message st) true).function_call = some fc)
    (hparse : parse fc.arguments = Except.error e) :
    chat svc parse impl commit freshId message sessionId st =
      ({ response := some ("I apologize, but I encountered an error: " ++ e),
         session_id := sid, success := false, error := some e },
       histSt sid st, 1) ∧
    (histSt sid st).rows = st.rows ∧
    (histSt sid st).log = st.log :=
  ⟨chat_parse_error svc parse impl commit freshId message sessionId st sid fc e
      hsid hfc hparse,
   get_conversation_history_rows sid st,
   get_conversation_history_log sid st⟩

/-- Witness for the amended C3 at a concrete malformed tool call. -/
theorem malformed_arguments_abort_turn_witness :
    chat
        (fun _ withTools => if withTools
          then { content := none,
                 function_call := some { name := "get_student",
                                         arguments := "notjson" } }
          else { content := some "unreachable", function_call := none })
        (fun _ => Except.error "Expecting value: line 1 column 1 (char 0)")
        (fun _ _ => Except.ok { success := true, message := "ok" })
        (fun _ => Except.ok ())
        "u1" "get student ST002" (some "s9")
        { memory := [], rows := [], log := [], clock := 0 } =
      ({ response := some ("I apologize, but I encountered an error: " ++
           "Expecting value: line 1 column 1 (char 0)"),
         session_id := "s9", success := false,
         error := some "Expecting value: line 1 column 1 (char 0)" },
       histSt "s9" { memory := [], rows := [], log := [], clock := 0 }, 1) ∧
    (histSt "s9" { memory := [], rows := [], log := [], clock := 0 }).rows =
      ({ memory := [], rows := [], log := [], clock := 0 } : AgentState).rows ∧
    (histSt "s9" { memory := [], rows := [], log := [], clock := 0 }).log =
      ({ memory := [], rows := [], log := [], clock := 0 } : AgentState).log :=
  malformed_arguments_abort_turn
    (fun _ withTools => if withTools
      then { content := none,
             function_call := some { name := "get_student",
                                     arguments := "notjson" } }
      else { content := some "unreachable", function_call := none })
    (fun _ => Except.error "Expecting value: line 1 column 1 (char 0)")
    (fun _ _ => Except.ok { success := true, message := "ok" })
    (fun _ => Except.ok ())
    "u1" "get student ST002" (some "s9")
    { memory := [], rows := [], log := [], clock := 0 }
    "s9" { name := "get_student", arguments := "notjson" }
    "Expecting value: line 1 column 1 (char 0)"
    (by decide) rfl rfl

/-- C9: for every turn that reaches the save — the direct-reply branch and
the tool-call branch alike (a malformed-arguments turn never attempts
persistence) — a failing store append leaves the result dict exactly what it
would have been with a working store: the response is still returned to the
caller with the session identifier and `success := true`, no error surfaces
past the save boundary, nothing is appended to the persisted rows, and the
failure is printed — the error line is appended to the log, never silently
swallowed. -/
theorem store_failure_logged_and_response_returned
    (svc : List Msg → Bool → RespMessage) (parse : String → Except String Args)
    (impl : String → Args → Except String ToolResult)
    (commit commit2 : ConvRow → Except String Unit)
    (freshId message : String) (sessionId : Option String) (st : AgentState)
    (sid : String) (e : String)
    (hsid : effectiveSid sessionId freshId = sid)
    (hcommit : ∀ row, commit row = Except.error e)
    (hok : (chat svc parse impl commit freshId message sessionId st).fst.success
      = true) :
    (chat svc parse impl commit freshId message sessionId st).fst =
      (chat svc parse impl commit2 freshId message sessionId st).fst ∧
    (chat svc parse impl commit freshId message sessionId st).fst.session_id =
      sid ∧
    (chat svc parse impl commit freshId message sessionId st).fst.error = none ∧
    (chat svc parse impl commit freshId message sessionId st).snd.fst.rows =
      st.rows ∧
    (chat svc parse impl commit freshId message sessionId st).snd.fst.log =
      st.log ++ ["Error saving conversation: " ++ e] := by
  cases hfc : (svc (syncMsgs sid message st) true).function_call with
  | none =>
      rw [chat_direct svc parse impl commit freshId message sessionId st sid
            hsid hfc,
          chat_direct svc parse impl commit2 freshId message sessionId st sid
            hsid hfc]
      refine ⟨rfl, rfl, rfl, ?_, ?_⟩ <;>
        simp [save_conversation, hcommit, get_conversation_history_rows,
          get_conversation_history_log]
  | some fc =>
      cases hparse : parse fc.arguments with
      | error er =>
          rw [chat_parse_error svc parse impl commit freshId message sessionId
            st sid fc er hsid hfc hparse] at hok
          simp at hok
      | ok args =>
          rw [chat_tool svc parse impl commit freshId message sessionId st sid
                fc args hsid hfc hparse,
              chat_tool svc parse impl commit2 freshId message sessionId st sid
                fc args hsid hfc hparse]
          refine ⟨rfl, rfl, rfl, ?_, ?_⟩ <;>
            simp [save_conversation, hcommit, get_conversation_history_rows,
              get_conversation_history_log]

/-- Witness for C9 at a concrete tool-call turn with a concretely failing
store, compared against a working store. -/
theorem store_failure_logged_witness :
    (chat
      (fun _ withTools => if withTools
        then { content := none,
               function_call := some { name := "get_student",
                                       arguments := "argjson" } }
        else { content := some "ST001 is Alice.", function_call := none })
      (fun _ => Except.ok [("id", "ST001")])
      (fun _ _ => Except.ok { success := true, message := "found" })
      (fun _ => Except.error "database is locked")
      "u1" "who is ST001" (some "s10")
      { memory := [], rows := [], log := [], clock := 0 }).fst =
      (chat
        (fun _ withTools => if withTools
          then { content := none,
                 function_call := some { name := "get_student",
                                         arguments := "argjson" } }
          else { content := some "ST001 is Alice.", function_call := none })
        (fun _ => Except.ok [("id", "ST001")])
        (fun _ _ => Except.ok { success := true, message := "found" })
        (fun _ => Except.ok ())
        "u1" "who is ST001" (some "s10")
        { memory := [], rows := [], log := [], clock := 0 }).fst ∧
    (chat
      (fun _ withTools => if withTools
        then { content := none,
               function_call := some { name := "get_student",
                                       arguments := "argjson" } }
        else { content := some "ST001 is Alice.", function_call := none })
      (fun _ => Except.ok [("id", "ST001")])
      (fun _ _ => Except.ok { success := true, message := "found" })
      (fun _ => Except.error "database is locked")
      "u1" "who is ST001" (some "s10")
      { memory := [], rows := [], log := [], clock := 0 }).fst.session_id =
      "s10" ∧
    (chat
      (fun _ withTools => if withTools
        then { content := none,
               function_call := some { name := "get_student",
                                       arguments := "argjson" } }
        else { content := some "ST001 is Alice.", function_call := none })
      (fun _ => Except.ok [("id", "ST001")])
      (fun _ _ => Except.ok { success := true, message := "found" })
      (fun _ => Except.error "database is locked")
      "u1" "who is ST001" (some "s10")
      { memory := [], rows := [], log := [], clock := 0 }).fst.error = none ∧
    (chat
      (fun _ withTools => if withTools
        then { content := none,
               function_call := some { name := "get_student",
                                       arguments := "argjson" } }
        else { content := some "ST001 is Alice.", function_call := none })
      (fun _ => Except.ok [("id", "ST001")])
      (fun _ _ => Except.ok { success := true, message := "found" })
      (fun _ => Except.error "database is locked")
      "u1" "who is ST001" (some "s10")
      { memory := [], rows := [], log := [], clock := 0 }).snd.fst.rows =
      ({ memory := [], rows := [], log := [], clock := 0 } : AgentState).rows ∧
    (chat
      (fun _ withTools => if withTools
        then { content := none,
               function_call := some { name := "get_student",
                                       arguments := "argjson" } }
        else { content := some "ST001 is Alice.", function_call := none })
      (fun _ => Except.ok [("id", "ST001")])
      (fun _ _ => Except.ok { success := true, message := "found" })
      (fun _ => Except.error "database is locked")
      "u1" "who is ST001" (some "s10")
      { memory := [], rows := [], log := [], clock := 0 }).snd.fst.log =
      ({ memory := [], rows := [], log := [], clock := 0 } : AgentState).log ++
        ["Error saving conversation: " ++ "database is locked"] :=
  store_failure_logged_and_response_returned
    (fun _ withTools => if withTools
      then { content := none,
             function_call := some { name := "get_student",
                                     arguments := "argjson" } }
      else { content := some "ST001 is Alice.", function_call := none })
    (fun _ => Except.ok [("id", "ST001")])
    (fun _ _ => Except.ok { success := true, message := "found" })
    (fun _ => Except.error "database is locked")
    (fun _ => Except.ok ())
    "u1" "who is ST001" (some "s10")
    { memory := [], rows := [], log := [], clock := 0 }
    "s10" "database is locked"
    (by decide) (fun _ => rfl) (by decide)

/- ### History-bound lemmas (C10) -/

lemma expandRows_length (l : List ConvRow) :
    (expandRows l).length = 2 * l.length := by
  induction l with
  | nil => rfl
  | cons c cs ih =>
      simp only [expandRows, List.length_cons, ih]
      ring

lemma insertByTs_length (c : ConvRow) (l : List ConvRow) :
    (insertByTs c l).length = l.length + 1 := by
  induction l with
  | nil => rfl
  | cons d ds ih =>
      simp only [insertByTs]
      split <;> simp [ih]

lemma sortByTs_length (l : List ConvRow) :
    (sortByTs l).length = l.length := by
  induction l with
  | nil => rfl
  | cons c cs ih => simp [sortByTs, insertByTs_length, ih]

lemma memLookup_memUpdate (m : List (String × List Msg)) (sid sid' : String)
    (h : List Msg) :
    memLookup (memUpdate m sid h) sid' =
      if sid = sid' then some h else memLookup m sid' := by
  induction m with
  | nil =>
      simp only [memUpdate, memLookup]
  | cons kv rest ih =>
      obtain ⟨k, v⟩ := kv
      simp only [memUpdate]
      by_cases hk : k = sid
      · subst hk
        simp only [if_pos rfl, memLookup]
        by_cases h1 : k = sid'
        · simp [h1]
        · simp [h1]
      · simp only [if_neg hk, memLookup, ih]
        by_cases h1 : k = sid'
        · have h2 : ¬(sid = sid') := fun h2 => hk (h1.trans h2.symm)
          simp [h1, h2]
        · simp [h1]

/-- Invariant: every cached per-session history holds at most 20 messages. -/
def memOk (st : AgentState) : Prop :=
  ∀ sid h, memLookup st.memory sid = some h → h.length ≤ 20

lemma trim20_length_le (l : List Msg) :
    (if l.length > 20 then l.drop (l.length - 20) else l).length ≤ 20 := by
  split
  · simp only [List.length_drop]
    omega
  · omega

lemma save_conversation_memory (commit : ConvRow → Except String Unit)
    (sid message : String) (response : Option String) (st : AgentState) :
    (save_conversation commit sid message response st).memory = st.memory ∨
    ∃ l, (save_conversation commit sid message response st).memory =
        memUpdate st.memory sid l ∧ l.length ≤ 20 := by
  simp only [save_conversation]
  rcases commit ⟨sid, message, response, st.clock⟩ with e | u
  · left
    rfl
  · right
    exact ⟨_, rfl, trim20_length_le _⟩

lemma save_conversation_memOk (commit : ConvRow → Except String Unit)
    (sid message : String) (response : Option String) (st : AgentState)
    (hok : memOk st) :
    memOk (save_conversation commit sid message response st) := by
  intro sid' h' hl
  rcases save_conversation_memory commit sid message response st with
    hmem | ⟨l, hmem, hlen⟩
  · rw [hmem] at hl
    exact hok sid' h' hl
  · rw [hmem, memLookup_memUpdate] at hl
    by_cases h1 : sid = sid'
    · rw [if_pos h1] at hl
      cases hl
      exact hlen
    · rw [if_neg h1] at hl
      exact hok sid' h' hl

lemma cold_load_history (sid : String) (st : AgentState)
    (hmiss : memLookup st.memory sid = none) :
    histMsgs sid st =
      expandRows
        ((sortByTs (st.rows.filter (fun r => r.session_id == sid))).take 10) := by
  simp [histMsgs, get_conversation_history, hmiss]

lemma histMsgs_length_le (sid : String) (st : AgentState) (hok : memOk st) :
    (histMsgs sid st).length ≤ 20 := by
  unfold histMsgs get_conversation_history
  cases hm : memLookup st.memory sid with
  | some h => exact hok sid h hm
  | none =>
      simp only [expandRows_length]
      have := List.length_take 10
        (sortByTs (st.rows.filter (fun r => r.session_id == sid)))
      omega

lemma histSt_memOk (sid : String) (st : AgentState) (hok : memOk st) :
    memOk (histSt sid st) := by
  intro sid' h' hl
  unfold histSt get_conversation_history at hl
  cases hm : memLookup st.memory sid with
  | some h =>
      rw [hm] at hl
      exact hok sid' h' hl
  | none =>
      rw [hm] at hl
      simp only [memLookup_memUpdate] at hl
      by_cases h1 : sid = sid'
      · rw [if_pos h1] at hl
        cases hl
        have h2 := histMsgs_length_le sid st hok
        rw [cold_load_history sid st hm] at h2
        exact h2
      · rw [if_neg h1] at hl
        exact hok sid' h' hl

/-- C10: history replay is bounded. Under the invariant that every cached
history holds at most 20 messages (true of a fresh agent and preserved by
both operations that write the cache), the history handed to the reasoning
service has at most 20 entries; a cold load equals the expansion of the 10
chronologically oldest stored rows of the session — exactly
`2 * min 10 n` messages, so stored turns beyond the oldest 10 are silently
absent — and saving a turn preserves the invariant by trimming to the last
20 messages. -/
theorem history_bounded
    (st : AgentState) (sid message : String) (response : Option String)
    (commit : ConvRow → Except String Unit)
    (hok : memOk st) :
    (histMsgs sid st).length ≤ 20 ∧
    memOk (histSt sid st) ∧
    (memLookup st.memory sid = none →
      histMsgs sid st =
        expandRows
          ((sortByTs (st.rows.filter (fun r => r.session_id == sid))).take 10) ∧
      (histMsgs sid st).length =
        2 * min 10 (st.rows.filter (fun r => r.session_id == sid)).length) ∧
    memOk (save_conversation commit sid message response st) := by
  refine ⟨histMsgs_length_le sid st hok, histSt_memOk sid st hok, ?_,
    save_conversation_memOk commit sid message response st hok⟩
  intro hmiss
  refine ⟨cold_load_history sid st hmiss, ?_⟩
  rw [cold_load_history sid st hmiss, expandRows_length, List.length_take,
    sortByTs_length]

/-- Witness for C10: a session with 12 stored rows and a cold cache loads
only the 10 oldest rows (20 messages), and saving preserves the bound. -/
theorem history_bounded_witness :
    (histMsgs "s1"
      { memory := [],
        rows := (List.range 12).map (fun i =>
          { session_id := "s1", message := "m", response := some "r",
            timestamp := i }),
        log := [], clock := 12 }).length ≤ 20 ∧
    histMsgs "s1"
      { memory := [],
        rows := (List.range 12).map (fun i =>
          { session_id := "s1", message := "m", response := some "r",
            timestamp := i }),
        log := [], clock := 12 } =
      expandRows
        ((sortByTs (((List.range 12).map (fun i =>
            ({ session_id := "s1", message := "m", response := some "r",
               timestamp := i } : ConvRow))).filter
          (fun r => r.session_id == "s1"))).take 10) ∧
    (histMsgs "s1"
      { memory := [],
        rows := (List.range 12).map (fun i =>
          { session_id := "s1", message := "m", response := some "r",
            timestamp := i }),
        log := [], clock := 12 }).length =
      2 * min 10 (((List.range 12).map (fun i =>
          ({ session_id := "s1", message := "m", response := some "r",
             timestamp := i } : ConvRow))).filter
        (fun r => r.session_id == "s1")).length ∧
    memOk (save_conversation (fun _ => Except.ok ()) "s1" "hello" (some "hi")
      { memory := [],
        rows := (List.range 12).map (fun i =>
          { session_id := "s1", message := "m", response := some "r",
            timestamp := i }),
        log := [], clock := 12 }) := by
  have h := history_bounded
    { memory := [],
      rows := (List.range 12).map (fun i =>
        { session_id := "s1", message := "m", response := some "r",
          timestamp := i }),
      log := [], clock := 12 }
    "s1" "hello" (some "hi") (fun _ => Except.ok ())
    (by intro s hh hl; simp [memLookup] at hl)
  exact ⟨h.1, (h.2.2.1 rfl).1, (h.2.2.1 rfl).2, h.2.2.2⟩

set_option maxRecDepth 8000 in
/-- C7 counterexample: `chat` and `chat_stream` do not send the same request
— `chat` uses the longer synchronous system preamble, `chat_stream` the
shorter streaming one — so one deterministic reasoning service (whose
streaming fragments are consistent with its synchronous content) yields
`some "A"` from the synchronous mode but streams `"B"` for the identical
input state and message. -/
theorem streaming_differs_from_sync :
    (let svcCE : List Msg → Bool → RespMessage := fun m _ =>
       { content := some (match m with
           | x :: _ => if x.content = some SYSTEM_PROMPT_SYNC then "A" else "B"
           | [] => "B"),
         function_call := none }
     let svcS : List Msg → List (Option String) := fun m =>
       [some (match m with
           | x :: _ => if x.content = some SYSTEM_PROMPT_SYNC then "A" else "B"
           | [] => "B")]
     let st0 : AgentState := { memory := [], rows := [], log := [], clock := 0 }
     chunkConcat (svcS (streamMsgs "s12" "hi" st0)) =
       ((svcCE (streamMsgs "s12" "hi" st0) false).content).getD "" ∧
     (chat svcCE (fun _ => Except.error "unused")
        (fun _ _ => Except.ok { success := true, message := "ok" })
        (fun _ => Except.ok ()) "u1" "hi" (some "s12") st0).fst.response =
       some "A" ∧
     concatContents (chat_stream svcCE svcS (fun _ => Except.error "unused")
        (fun _ _ => Except.ok { success := true, message := "ok" })
        (fun _ => Except.ok ()) "u1" "hi" (some "s12") st0).fst = "B" ∧
     "A" ≠ "B") := by
  exact ⟨by decide, by decide, by decide, by decide⟩

/-- C7 (amended): for a non-tool turn, if the streaming service's fragments
concatenate to the synchronous content of every request and the service's
reply content is the same for the two modes' actual requests (they differ in
the system preamble and in whether tool schemas are attached), then the
concatenation of all streamed fragments equals the text the synchronous mode
returns. -/
theorem stream_concat_matches_sync
    (svc : List Msg → Bool → RespMessage)
    (svcStream : List Msg → List (Option String))
    (parse : String → Except String Args)
    (impl : String → Args → Except String ToolResult)
    (commit : ConvRow → Except String Unit)
    (freshId message : String) (sessionId : Option String) (st : AgentState)
    (sid t : String)
    (hsid : effectiveSid sessionId freshId = sid)
    (hconsist : ∀ m, chunkConcat (svcStream m) = ((svc m false).content).getD "")
    (hfcS : (svc (syncMsgs sid message st) true).function_call = none)
    (hfcT : (svc (streamMsgs sid message st) true).function_call = none)
    (hagree : (svc (streamMsgs sid message st) false).content =
      (svc (syncMsgs sid message st) true).content)
    (hcontent : (svc (syncMsgs sid message st) true).content = some t) :
    (chat svc parse impl commit freshId message sessionId st).fst.response =
      some t ∧
    concatContents (chat_stream svc svcStream parse impl commit freshId
      message sessionId st).fst = t := by
  constructor
  · rw [chat_direct svc parse impl commit freshId message sessionId st sid
      hsid hfcS]
    exact hcontent
  · rw [chat_stream_direct svc svcStream parse impl commit freshId message
      sessionId st sid hsid hfcT]
    rw [concatContents_append_done, concatContents_emitChunks, hconsist,
      hagree, hcontent]
    rfl

/-- Witness for the amended C7 at a concrete deterministic service whose
reply ignores the preamble difference. -/
theorem stream_concat_matches_sync_witness :
    (chat (fun _ _ => { content := some "All good.", function_call := none })
      (fun _ => Except.error "unused")
      (fun _ _ => Except.ok { success := true, message := "ok" })
      (fun _ => Except.ok ()) "u1" "status?" (some "s11")
      { memory := [], rows := [], log := [], clock := 0 }).fst.response =
      some "All good." ∧
    concatContents (chat_stream
      (fun _ _ => { content := some "All good.", function_call := none })
      (fun _ => [some "All good."])
      (fun _ => Except.error "unused")
      (fun _ _ => Except.ok { success := true, message := "ok" })
      (fun _ => Except.ok ()) "u1" "status?" (some "s11")
      { memory := [], rows := [], log := [], clock := 0 }).fst = "All good." :=
  stream_concat_matches_sync
    (fun _ _ => { content := some "All good.", function_call := none })
    (fun _ => [some "All good."])
    (fun _ => Except.error "unused")
    (fun _ _ => Except.ok { success := true, message := "ok" })
    (fun _ => Except.ok ()) "u1" "status?" (some "s11")
    { memory := [], rows := [], log := [], clock := 0 }
    "s11" "All good."
    (by decide) (fun _ => by simp [chunkConcat]) rfl rfl rfl rfl
